import Mathlib

set_option maxHeartbeats 1000000

/- Verification of the Promptly Q&A orchestration engine.

   Shallow embedding of the relevant code:
   - src/backend/services/qa_loop.py   (stop conditions, context chain/truncation, parser)
   - src/backend/services/ai_internal.py (prompt truncation, retry loop)
   - src/backend/api/sessions.py       (answer_question orchestration)

   Python strings that undergo length arithmetic are modelled as `List Char`;
   strings only compared for equality are modelled as `String`. -/

/-- A session as the stop-condition logic observes it: the `status` string and
the `max_questions` bound (fields read by qa_loop.check_stop_conditions). -/
structure SessionSt where
  status : String
  max_questions : Nat
  deriving DecidableEq

/-- A stored conversation node as the question-counting query observes it.
The query in qa_loop.check_stop_conditions filters the `nodes` collection on
session_id, role "assistant" and type "question"; a `List QANode` below stands
for the node set of the one session under consideration. -/
structure QANode where
  role : String
  type : String
  deriving DecidableEq

/-- Embeds the count_documents query of qa_loop.check_stop_conditions
(qa_loop.py lines 114-120). -/
def count_ai_questions (nodes : List QANode) : Nat :=
  (nodes.filter (fun n => n.role == ("assistant") && n.type == ("question"))).length

/-- Embeds qa_loop.check_stop_conditions (qa_loop.py lines 92-125):
the cancel flag is tested first, then a non-active status, then the
question quota. -/
def check_stop_conditions (nodes : List QANode) (session : SessionSt)
    (cancel_requested : Bool) : Bool × String :=
  if cancel_requested then (true, ("cancelled"))
  else if session.status ≠ ("active") then (true, ("session_") ++ session.status)
  else if count_ai_questions nodes ≥ session.max_questions then
    (true, ("max_questions_reached"))
  else (false, (""))

/-- Outcome of a stopped `Answer` call: the HTTP status code, the error detail,
and the session status persisted (and committed) before the error is raised. -/
structure StopOutcome where
  http : Nat
  detail : String
  new_status : String
  deriving DecidableEq

/-- Embeds the stop-condition handling of answer_question
(api/sessions.py lines 221-248): reason "cancelled" persists status
"cancelled", reason "max_questions_reached" persists status "completed", any
other stop reason commits with the status unchanged; every stop case fails the
call with HTTP 400. Returns `none` when the loop proceeds instead. -/
def answer_stop_outcome (nodes : List QANode) (cancel : Bool) (session : SessionSt) :
    Option StopOutcome :=
  match check_stop_conditions nodes session cancel with
  | (true, reason) =>
    if reason = ("cancelled") then
      some (StopOutcome.mk 400 ("Session cancelled by user request") ("cancelled"))
    else if reason = ("max_questions_reached") then
      some (StopOutcome.mk 400 ("Maximum questions limit reached") ("completed"))
    else
      some (StopOutcome.mk 400 (("Session cannot continue: ") ++ reason) session.status)
  | (false, _) => none

/-- Which branch of answer_question's response handling runs, i.e. the
truthiness outcome of `if question and options: ... elif final_prompt: ...
else: ...` (api/sessions.py lines 360-412). -/
inductive AiBranch where
  | question
  | final
  | fallback
  deriving DecidableEq

/-- The session status after one full `Answer` call (api/sessions.py lines
221-412): a stopped call persists the status chosen by answer_stop_outcome; a
call that proceeds keeps the status on the question branch and sets
"completed" on the final and fallback branches. -/
def answer_turn_status (nodes : List QANode) (cancel : Bool) (branch : AiBranch)
    (session : SessionSt) : String :=
  match answer_stop_outcome nodes cancel session with
  | some outcome => outcome.new_status
  | none =>
    match branch with
    | .question => session.status
    | .final => ("completed")
    | .fallback => ("completed")

/-- A sequence of `Answer` calls acting on the session status; each list
element carries the node set seen by the quota query, the cancel flag, and the
response branch taken on that call. -/
def run_answers (ops : List (List QANode × Bool × AiBranch)) (session : SessionSt) :
    SessionSt :=
  ops.foldl
    (fun st op => SessionSt.mk (answer_turn_status op.1 op.2.1 op.2.2 st) st.max_questions)
    session

/-- Helper for C1: a terminal status survives one Answer call unless the call
is a cancel=true call against a "completed" session. -/
theorem answer_turn_status_terminal (nodes : List QANode) (cancel : Bool)
    (branch : AiBranch) (session : SessionSt)
    (h : session.status = ("cancelled") ∨
        (session.status = ("completed") ∧ cancel = false)) :
    answer_turn_status nodes cancel branch session = session.status := by
  obtain ⟨st, mq⟩ := session
  rcases h with h | ⟨h, hc⟩
  · simp only at h
    subst h
    cases cancel <;> rfl
  · simp only at h
    subst h
    subst hc
    rfl

/-- C1 counterexample: an Answer call carrying cancel=true against a session
whose status is already "completed" re-writes the status to "cancelled",
because check_stop_conditions tests the cancel flag before the status; the
claim requires the status to stay "completed". -/
theorem c1_counterexample :
    answer_turn_status [] true AiBranch.question (SessionSt.mk ("completed") 5)
        = ("cancelled") ∧
    ("cancelled") ≠ ("completed") := by
  exact ⟨rfl, by decide⟩

/-- C1 amended: terminal statuses are stable under every sequence of Answer
calls except for the one transition the code permits: an Answer call with
cancel=true against a "completed" session re-writes the status to "cancelled".
Hence a "cancelled" session never changes status again, and a "completed"
session never changes status under calls that do not set cancel. -/
theorem c1_amended (ops : List (List QANode × Bool × AiBranch)) (session : SessionSt)
    (h : session.status = ("cancelled") ∨
        (session.status = ("completed") ∧ ∀ op ∈ ops, op.2.1 = false)) :
    (run_answers ops session).status = session.status := by
  induction ops generalizing session with
  | nil => rfl
  | cons op rest ih =>
    have hstep : answer_turn_status op.1 op.2.1 op.2.2 session = session.status := by
      apply answer_turn_status_terminal
      rcases h with h | ⟨h, hall⟩
      · exact Or.inl h
      · exact Or.inr ⟨h, hall op (by simp)⟩
    have hrest :
        run_answers (op :: rest) session
          = run_answers rest (SessionSt.mk session.status session.max_questions) := by
      simp only [run_answers, List.foldl_cons, hstep]
    rw [hrest]
    have h' :
        (SessionSt.mk session.status session.max_questions).status = ("cancelled") ∨
        ((SessionSt.mk session.status session.max_questions).status = ("completed") ∧
          ∀ op' ∈ rest, op'.2.1 = false) := by
      rcases h with h | ⟨h, hall⟩
      · exact Or.inl h
      · exact Or.inr ⟨h, fun op' hop' => hall op' (by simp [hop'])⟩
    exact ih _ h'

/-- C1 witness: a completed session stays completed across a concrete sequence
of cancel-free Answer calls. -/
theorem c1_witness :
    (run_answers [([], false, AiBranch.question), ([], false, AiBranch.final)]
        (SessionSt.mk ("completed") 3)).status = ("completed") :=
  c1_amended [([], false, AiBranch.question), ([], false, AiBranch.final)]
    (SessionSt.mk ("completed") 3) (Or.inr ⟨rfl, by decide⟩)

/-- C2 counterexample: for a session whose status is "completed" and a call
carrying cancelRequested=true, check_stop_conditions returns
(true, "cancelled"), not (true, "session_completed") as the claim requires for
every value of the flag. -/
theorem c2_counterexample :
    check_stop_conditions [] (SessionSt.mk ("completed") 5) true
        = (true, ("cancelled")) ∧
    ¬ check_stop_conditions [] (SessionSt.mk ("completed") 5) true
        = (true, ("session_completed")) := by
  decide

/-- C2 amended: the evaluator tests the cancel flag first; for a non-active
session it returns (true, "session_<status>") when cancelRequested is false,
while cancelRequested=true always yields (true, "cancelled") regardless of the
status. -/
theorem c2_amended (nodes : List QANode) (session : SessionSt)
    (h : session.status ≠ ("active")) :
    check_stop_conditions nodes session false
        = (true, ("session_") ++ session.status) ∧
    check_stop_conditions nodes session true = (true, ("cancelled")) := by
  constructor
  · simp [check_stop_conditions, h]
  · simp [check_stop_conditions]

/-- C2 witness: concrete instance of the amended stop-check behaviour on a
cancelled session. -/
theorem c2_witness :
    check_stop_conditions [] (SessionSt.mk ("cancelled") 2) false
        = (true, ("session_") ++ ("cancelled")) :=
  (c2_amended [] (SessionSt.mk ("cancelled") 2) (by decide)).1

/-- C3 counterexample: with max_questions = 1 and one assistant/question node,
the first Answer call fails with the max-questions reason and completes the
session, but the next Answer call (cancel unset, quota still reached) fails
with detail "Session cannot continue: session_completed" — not the
max-questions stop reason, refuting "every subsequent Answer call fails with
the max-questions stop reason". -/
theorem c3_counterexample :
    answer_stop_outcome [QANode.mk ("assistant") ("question")] false
        (SessionSt.mk ("active") 1)
      = some (StopOutcome.mk 400 ("Maximum questions limit reached") ("completed")) ∧
    answer_stop_outcome [QANode.mk ("assistant") ("question")] false
        (SessionSt.mk ("completed") 1)
      = some (StopOutcome.mk 400 ("Session cannot continue: session_completed")
          ("completed")) ∧
    ("Session cannot continue: session_completed")
        ≠ ("Maximum questions limit reached") := by
  decide

/-- C3 amended: once the assistant/question count has reached max_questions,
the next Answer call on the still-active session fails HTTP 400 with the
max-questions reason and persists status "completed"; every later call (cancel
unset) again fails HTTP 400 and the status remains "completed", but with
reason "session_completed" rather than the max-questions reason. -/
theorem c3_amended (nodes : List QANode) (session : SessionSt)
    (hq : count_ai_questions nodes ≥ session.max_questions) :
    (session.status = ("active") →
      answer_stop_outcome nodes false session
        = some (StopOutcome.mk 400 ("Maximum questions limit reached") ("completed"))) ∧
    (session.status = ("completed") →
      answer_stop_outcome nodes false session
        = some (StopOutcome.mk 400 ("Session cannot continue: session_completed")
            ("completed"))) := by
  obtain ⟨st, mq⟩ := session
  simp only at hq
  constructor
  · intro h
    simp only at h
    subst h
    simp [answer_stop_outcome, check_stop_conditions, hq]
  · intro h
    simp only at h
    subst h
    rfl

/-- C3 witness: concrete instance of the amended quota behaviour, first call
and a subsequent call. -/
theorem c3_witness :
    answer_stop_outcome [QANode.mk ("assistant") ("question")] false
        (SessionSt.mk ("completed") 1)
      = some (StopOutcome.mk 400 ("Session cannot continue: session_completed")
          ("completed")) :=
  (c3_amended [QANode.mk ("assistant") ("question")] (SessionSt.mk ("completed") 1)
    (by decide)).2 rfl

/-- One attempt's outcome as seen by the retry loop of ai_internal.ask_gemini:
an HTTP response with a status code and a body text, a read timeout, or a
transport-level request error. A `List AttemptOutcome` plays the role of the
mocked HTTP endpoint, one entry per attempt the loop makes. -/
inductive AttemptOutcome where
  | resp (statusCode : Nat) (body : String)
  | timeout
  | netError (msg : String)
  deriving DecidableEq

/-- Result of ask_gemini: the parsed success payload (modelled by the response
body) or a raised GeminiServiceError carrying status and detail. -/
inductive GeminiResult where
  | ok (body : String)
  | err (statusCode : Nat) (detail : String)
  deriving DecidableEq

/-- Whether ask_gemini returned normally rather than raising. -/
def GeminiResult.isOk : GeminiResult → Bool
  | .ok _ => true
  | .err _ _ => false

/-- max_retries = 3 in ai_internal.ask_gemini (ai_internal.py line 172). -/
def max_retries : Nat := 3

/-- Embeds the retry loop of ai_internal.ask_gemini (ai_internal.py lines
171-258). `attempt` is the loop index; `jitters` supplies the values drawn by
random.uniform(0, 0.25), one per sleep. Returns the result, the number of HTTP
attempts made, and the list of slept durations, each base_delay * 2^attempt +
jitter with base_delay = 1 second. -/
def ask_gemini_from (attempt : Nat) (outcomes : List AttemptOutcome)
    (jitters : List ℚ) : GeminiResult × Nat × List ℚ :=
  match outcomes with
  | [] => (GeminiResult.err 500 ("Maximum retries exceeded"), 0, [])
  | o :: rest =>
    if attempt ≥ max_retries then
      (GeminiResult.err 500 ("Maximum retries exceeded"), 0, [])
    else
      match o with
      | .resp code body =>
        if code = 200 then (GeminiResult.ok body, 1, [])
        else if 400 ≤ code ∧ code < 500 then (GeminiResult.err code body, 1, [])
        else if 500 ≤ code then
          if attempt = max_retries - 1 then (GeminiResult.err code body, 1, [])
          else
            let delay : ℚ := 1 * 2 ^ attempt + jitters.headD 0
            let r := ask_gemini_from (attempt + 1) rest jitters.tail
            (r.1, r.2.1 + 1, delay :: r.2.2)
        else
          (GeminiResult.err code (("Unexpected status code: ") ++ toString code), 1, [])
      | .timeout =>
        if attempt = max_retries - 1 then
          (GeminiResult.err 408 ("Request timeout after retries"), 1, [])
        else
          let delay : ℚ := 1 * 2 ^ attempt + jitters.headD 0
          let r := ask_gemini_from (attempt + 1) rest jitters.tail
          (r.1, r.2.1 + 1, delay :: r.2.2)
      | .netError m =>
        if attempt = max_retries - 1 then
          (GeminiResult.err 500 (("Request error after retries: ") ++ m), 1, [])
        else
          let delay : ℚ := 1 * 2 ^ attempt + jitters.headD 0
          let r := ask_gemini_from (attempt + 1) rest jitters.tail
          (r.1, r.2.1 + 1, delay :: r.2.2)

/-- ask_gemini's whole retry loop, starting at attempt 0. -/
def ask_gemini_run (outcomes : List AttemptOutcome) (jitters : List ℚ) :
    GeminiResult × Nat × List ℚ :=
  ask_gemini_from 0 outcomes jitters

/-- Helper for C4: the loop starting at `attempt` makes at most
max_retries - attempt HTTP attempts. -/
theorem ask_gemini_from_calls_le (attempt : Nat) (outcomes : List AttemptOutcome)
    (jitters : List ℚ) :
    (ask_gemini_from attempt outcomes jitters).2.1 ≤ max_retries - attempt := by
  induction outcomes generalizing attempt jitters with
  | nil => simp [ask_gemini_from]
  | cons o rest ih =>
    cases o <;>
      (simp only [ask_gemini_from]
       split_ifs <;> simp_all <;>
         first
           | omega
           | (have hrec := ih (attempt + 1) jitters.tail; omega))

/-- C4 counterexample: only status 200 counts as success in ask_gemini; a 2xx
response such as 201 falls to the final else-branch and raises
GeminiServiceError("Unexpected status code: 201") instead of returning the
parsed payload, refuting "a 2xx response returns the parsed payload
immediately". -/
theorem c4_counterexample :
    ask_gemini_run [AttemptOutcome.resp 201 ("payload")] []
        = (GeminiResult.err 201 ("Unexpected status code: 201"), 1, []) ∧
    (ask_gemini_run [AttemptOutcome.resp 201 ("payload")] []).1.isOk = false := by
  constructor
  · rfl
  · rfl

/-- Helper for C4: the head jitter (and the jitter after it) drawn from a
stream of values in [0, 1/4] stays in [0, 1/4]. -/
theorem jitters_headD_bounds (jitters : List ℚ)
    (hj : ∀ j ∈ jitters, 0 ≤ j ∧ j ≤ 1/4) :
    (0 ≤ jitters.headD 0 ∧ jitters.headD 0 ≤ 1/4) ∧
    (0 ≤ jitters.tail.headD 0 ∧ jitters.tail.headD 0 ≤ 1/4) := by
  constructor
  · cases jitters with
    | nil => norm_num
    | cons j t => exact hj j (by simp)
  · cases jitters with
    | nil => norm_num
    | cons j t =>
      cases t with
      | nil => norm_num
      | cons j2 t2 => exact hj j2 (by simp)

/-- C4 amended: the completion client makes at most 3 HTTP attempts per call;
a 200 response returns the parsed payload immediately, but any other
non-error status (including 2xx codes such as 201, see the counterexample)
raises an unexpected-status error without retrying; a 4xx response raises a
client error carrying the status and body with no retry and no sleep; a 5xx
response or timeout sleeps base*2^attempt (base 1s) plus the drawn jitter and
retries; a mock returning 500,500,200 yields exactly 2 sleeps (each within
[2^attempt, 2^attempt + 0.25] for jitter in [0, 0.25]) and success, and a mock
returning 500,500,500 yields exactly 3 calls and a surfaced server error. -/
theorem c4_amended (outcomes : List AttemptOutcome) (jitters : List ℚ)
    (body b1 b2 b3 : String) (code : Nat)
    (hj : ∀ j ∈ jitters, 0 ≤ j ∧ j ≤ 1/4) :
    ((ask_gemini_run outcomes jitters).2.1 ≤ 3) ∧
    (ask_gemini_run (AttemptOutcome.resp 200 body :: outcomes) jitters
        = (GeminiResult.ok body, 1, [])) ∧
    (400 ≤ code → code < 500 →
      ask_gemini_run (AttemptOutcome.resp code body :: outcomes) jitters
        = (GeminiResult.err code body, 1, [])) ∧
    (ask_gemini_run
        [AttemptOutcome.resp 500 b1, AttemptOutcome.resp 500 b2,
          AttemptOutcome.resp 200 body] jitters
      = (GeminiResult.ok body, 3,
          [1 + List.headD jitters 0, 2 + List.headD jitters.tail 0])) ∧
    (1 ≤ 1 + List.headD jitters 0 ∧ 1 + List.headD jitters 0 ≤ 5/4) ∧
    (2 ≤ 2 + List.headD jitters.tail 0 ∧ 2 + List.headD jitters.tail 0 ≤ 9/4) ∧
    (ask_gemini_run
        [AttemptOutcome.resp 500 b1, AttemptOutcome.resp 500 b2,
          AttemptOutcome.resp 500 b3] jitters
      = (GeminiResult.err 500 b3, 3,
          [1 + List.headD jitters 0, 2 + List.headD jitters.tail 0])) ∧
    (ask_gemini_run (AttemptOutcome.timeout :: AttemptOutcome.resp 200 body :: outcomes)
        jitters
      = (GeminiResult.ok body, 2, [1 + List.headD jitters 0])) := by
  have hb := jitters_headD_bounds jitters hj
  refine ⟨ask_gemini_from_calls_le 0 outcomes jitters, ?_, ?_, ?_, ?_, ?_, ?_, ?_⟩
  · rfl
  · intro h1 h2
    have hne : ¬ code = 200 := by omega
    simp only [ask_gemini_run, ask_gemini_from]
    rw [if_neg (by decide), if_neg hne, if_pos ⟨h1, h2⟩]
  · simp [ask_gemini_run, ask_gemini_from, max_retries]
  · constructor
    · linarith [hb.1.1]
    · linarith [hb.1.2]
  · constructor
    · linarith [hb.2.1]
    · linarith [hb.2.2]
  · simp [ask_gemini_run, ask_gemini_from, max_retries]
  · simp [ask_gemini_run, ask_gemini_from, max_retries]

/-- C4 witness: the 500,500,200 mock with concrete jitters 1/8 and 1/10 gives
success after exactly two sleeps of 1+1/8 and 2+1/10 seconds. -/
theorem c4_witness :
    ask_gemini_run
        [AttemptOutcome.resp 500 ("e1"), AttemptOutcome.resp 500 ("e2"),
          AttemptOutcome.resp 200 ("p")] [1/8, 1/10]
      = (GeminiResult.ok ("p"), 3,
          [1 + List.headD [(1 : ℚ)/8, 1/10] 0, 2 + List.headD (List.tail [(1 : ℚ)/8, 1/10]) 0]) :=
  (c4_amended [] [1/8, 1/10] ("p") ("e1") ("e2") ("x") 0
    (by intro j hj; fin_cases hj <;> norm_num)).2.2.2.1

/-- Python strings that undergo slicing and length arithmetic are modelled as
lists of characters. -/
abbrev Str := List Char

/-- Python slicing s[:k]: a negative bound counts from the end of the string,
clamping at the empty string. -/
def pyTake (s : Str) (k : Int) : Str :=
  if 0 ≤ k then s.take k.toNat else s.take (s.length - k.natAbs)

/-- The truncation marker "…[truncated]" of ai_internal._truncate_prompt
(ai_internal.py line 75); its length is 12 characters. -/
def truncation_marker : Str := ("…[truncated]").toList

/-- Embeds ai_internal._truncate_prompt (ai_internal.py lines 60-77): a prompt
no longer than max_length passes through; otherwise the prompt is cut to
max_length - len(marker) characters and the marker is appended. -/
def truncate_prompt (prompt : Str) (max_length : Nat) : Str :=
  if prompt.length ≤ max_length then prompt
  else
    pyTake prompt ((max_length : Int) - (truncation_marker.length : Int))
      ++ truncation_marker

/-- The text ask_gemini actually transmits for a given payload prompt: the
request body embeds truncated_prompt = _truncate_prompt(original_prompt) with
the default threshold of 2000 characters (ai_internal.py lines 131-156). -/
def ask_gemini_transmitted_text (prompt : Str) : Str :=
  truncate_prompt prompt 2000

/-- C7 confirmed: the transmitted text equals the prompt unchanged when its
length is at most 2000 characters; otherwise it is the prompt cut to
2000 - 12 characters with the 12-character truncation marker appended, for a
transmitted length of exactly the 2000-character threshold. -/
theorem c7_transmitted_text (prompt : Str) :
    (prompt.length ≤ 2000 → ask_gemini_transmitted_text prompt = prompt) ∧
    (2000 < prompt.length →
      ask_gemini_transmitted_text prompt
          = prompt.take 1988 ++ truncation_marker ∧
      (ask_gemini_transmitted_text prompt).length = 2000) := by
  have hmark : truncation_marker.length = 12 := by decide
  constructor
  · intro h
    simp [ask_gemini_transmitted_text, truncate_prompt, h]
  · intro h
    have hne : ¬ prompt.length ≤ 2000 := by omega
    have heq : ask_gemini_transmitted_text prompt
        = prompt.take 1988 ++ truncation_marker := by
      simp only [ask_gemini_transmitted_text, truncate_prompt, if_neg hne, hmark, pyTake]
      norm_num
      rfl
    refine ⟨heq, ?_⟩
    rw [heq]
    simp only [List.length_append, List.length_take, hmark]
    omega

/-- C7 witness: a 30-character prompt passes through unchanged and a
2001-character prompt is transmitted as exactly 2000 characters. -/
theorem c7_witness :
    ask_gemini_transmitted_text (List.replicate 30 ('a')) = List.replicate 30 ('a') ∧
    (ask_gemini_transmitted_text (List.replicate 2001 ('a'))).length = 2000 :=
  ⟨(c7_transmitted_text (List.replicate 30 ('a'))).1
      (by simp only [List.length_replicate]; norm_num),
    ((c7_transmitted_text (List.replicate 2001 ('a'))).2
      (by simp only [List.length_replicate]; norm_num)).2⟩

/-- A context entry as produced by build_context_chain and consumed by
truncate_context_for_tokens: role, content and type. A Python None type and an
empty-string type are both falsy and render identically, so type is a plain
`Str` with [] for "absent". created_at is carried along but never rendered. -/
structure Entry where
  role : Str
  content : Str
  type : Str
  created_at : Nat
  deriving DecidableEq

/-- Python str.strip(): leading and trailing whitespace removed. -/
def pyStrip (s : Str) : Str :=
  ((s.dropWhile Char.isWhitespace).reverse.dropWhile Char.isWhitespace).reverse

/-- The "=== INITIAL USER CONTEXT ===\n" heading (29 characters). -/
def initial_header : Str := ("=== INITIAL USER CONTEXT ===\n").toList

/-- The "=== CONVERSATION HISTORY ===\n" heading (29 characters),
header_text in the truncation loop. -/
def conversation_header : Str := ("=== CONVERSATION HISTORY ===\n").toList

/-- The "…[truncated]\n" suffix appended to an over-long initial-context block
(qa_loop.py line 252); 13 characters. -/
def trunc_marker_nl : Str := ("…[truncated]\n").toList

/-- The "\n\n" separator used between sections and between history entries. -/
def sep2 : Str := ("\n\n").toList

/-- Python sep.join(parts): the parts concatenated with sep in between
(empty output for an empty list). -/
def joinSep (sep : Str) : List Str → Str
  | [] => []
  | [x] => x
  | x :: y :: rest => x ++ sep ++ joinSep sep (y :: rest)

/-- The rendering of one turn: "[role:type] content" when the type is truthy,
else "[role] content" (qa_loop.py lines 218-226 and 261-269). -/
def renderEntry (e : Entry) : Str :=
  if e.type ≠ [] then
    ("[").toList ++ e.role ++ (":").toList ++ e.type ++ ("] ").toList ++ e.content
  else
    ("[").toList ++ e.role ++ ("] ").toList ++ e.content

/-- The initial-context section
"=== INITIAL USER CONTEXT ===\n<stripped starter>\n" (qa_loop.py line 212). -/
def initial_section (starter_prompt : Str) : Str :=
  initial_header ++ pyStrip starter_prompt ++ [('\n')]

/-- Truthiness of `starter_prompt and starter_prompt.strip()`: equivalent to
the stripped starter being non-empty. -/
def has_initial (starter_prompt : Str) : Bool :=
  !(pyStrip starter_prompt).isEmpty

/-- The labeled sections, initial context first (qa_loop.py lines 208-230). -/
def context_sections (context_chain : List Entry) (starter_prompt : Str) : List Str :=
  (if has_initial starter_prompt then [initial_section starter_prompt] else []) ++
  (if context_chain.isEmpty then [] else
    [conversation_header ++ joinSep sep2 (context_chain.map renderEntry)])

/-- reserved_for_initial (qa_loop.py line 242):
min(len(context_sections[0]), max_chars // 3). -/
def reserved_for_initial (context_chain : List Entry) (starter_prompt : Str)
    (max_chars : Nat) : Nat :=
  min ((context_sections context_chain starter_prompt).headD []).length (max_chars / 3)

/-- available_for_conversation (qa_loop.py line 243). Nat subtraction clamps
at 0 exactly where the Python value would be negative; the two agree because
the only uses are the `> 100` guard and the `- len(header_text)` inside the
loop, which runs only under that guard. -/
def available_for_conversation (context_chain : List Entry) (starter_prompt : Str)
    (max_chars : Nat) : Nat :=
  max_chars - reserved_for_initial context_chain starter_prompt max_chars - 50

/-- The initial-context block kept on the truncation path (qa_loop.py lines
246-253): the whole section when it fits the reservation, else its Python
slice [:reserved-15] (negative bounds wrap per Python slicing) with
"…[truncated]\n" appended. -/
def kept_initial (starter_prompt : Str) (reserved : Nat) : Str :=
  if (initial_section starter_prompt).length ≤ reserved then initial_section starter_prompt
  else pyTake (initial_section starter_prompt) ((reserved : Int) - 15) ++ trunc_marker_nl

/-- The backward fill of recent turns (qa_loop.py lines 256-275): walk the
reversed chain, appending each rendered turn whole while it fits, stopping at
the first one that does not. Returns the collected parts (most recent first)
and the final current_length. -/
def fit_parts (available : Nat) (current : Nat) (acc : List Str) :
    List Entry → List Str × Nat
  | [] => (acc, current)
  | e :: rest =>
    let t := renderEntry e
    if current + t.length + 2 > available - conversation_header.length then (acc, current)
    else fit_parts available (current + t.length + 2) (acc ++ [t]) rest

/-- Embeds qa_loop.truncate_context_for_tokens (qa_loop.py lines 192-282). -/
def truncate_context_for_tokens (context_chain : List Entry) (starter_prompt : Str)
    (max_chars : Nat) : Str :=
  if (context_sections context_chain starter_prompt).isEmpty then []
  else
    let full_context := joinSep sep2 (context_sections context_chain starter_prompt)
    if full_context.length ≤ max_chars then full_context
    else
      let reserved := reserved_for_initial context_chain starter_prompt max_chars
      let available := available_for_conversation context_chain starter_prompt max_chars
      let ts1 : List Str :=
        if has_initial starter_prompt then [kept_initial starter_prompt reserved] else []
      let ts2 : List Str :=
        if ¬ context_chain.isEmpty ∧ available > 100 then
          let parts := (fit_parts available 0 [] context_chain.reverse).1
          if ¬ parts.isEmpty then
            ts1 ++ [conversation_header ++ joinSep sep2 parts.reverse]
          else ts1
        else ts1
      if ts2.isEmpty then truncation_marker else joinSep sep2 ts2

/-- C8 counterexample: with an empty chain, a 60-character starter prompt and
max_chars = 30, the initial-context reservation is min(90, 10) = 10, the
Python slice [:10-15] keeps all but the last 5 of the 90-character initial
section, and the output is 98 characters long - exceeding the budget of 30 by
68, far more than any marker constant in the code (the largest is 15). -/
theorem c8_counterexample :
    (truncate_context_for_tokens [] (List.replicate 60 ('a')) 30).length = 98 ∧
    ¬ (truncate_context_for_tokens [] (List.replicate 60 ('a')) 30).length ≤ 30 + 15 := by
  decide

/-- Length bookkeeping mirroring current_length: each part counts its length
plus 2 (the separator allowance used by the loop condition). -/
def sum_len2 (l : List Str) : Nat := (l.map (fun s => s.length + 2)).sum

/-- sum_len2 distributes over cons. -/
theorem sum_len2_cons (x : Str) (l : List Str) :
    sum_len2 (x :: l) = x.length + 2 + sum_len2 l := by
  simp [sum_len2]

/-- The joined length of non-empty parts is their sum_len2 minus the final
separator allowance. -/
theorem joinSep_sep2_length (l : List Str) (h : l ≠ []) :
    (joinSep sep2 l).length + 2 = sum_len2 l := by
  induction l with
  | nil => cases h rfl
  | cons x rest ih =>
    cases rest with
    | nil => simp [joinSep, sum_len2]
    | cons y t =>
      have hrec := ih (by simp)
      have hj : joinSep sep2 (x :: y :: t) = x ++ sep2 ++ joinSep sep2 (y :: t) := rfl
      rw [hj, sum_len2_cons]
      simp only [List.length_append]
      have hsep : sep2.length = 2 := by decide
      omega

/-- sum_len2 is invariant under reversal. -/
theorem sum_len2_reverse (l : List Str) : sum_len2 l.reverse = sum_len2 l := by
  simp [sum_len2, List.map_reverse, List.sum_reverse]

/-- fit_parts collects the rendered prefix of the list it walks, and its
current_length accounts for exactly the collected parts. -/
theorem fit_parts_shape (available : Nat) (entries : List Entry) :
    ∀ (current : Nat) (acc : List Str),
      ∃ k, (fit_parts available current acc entries).1
            = acc ++ (entries.take k).map renderEntry ∧
        (fit_parts available current acc entries).2
            = current + sum_len2 ((entries.take k).map renderEntry) := by
  induction entries with
  | nil =>
    intro current acc
    exact ⟨0, by simp [fit_parts], by simp [fit_parts, sum_len2]⟩
  | cons e rest ih =>
    intro current acc
    by_cases hc : current + (renderEntry e).length + 2
        > available - conversation_header.length
    · refine ⟨0, ?_, ?_⟩ <;> simp [fit_parts, hc, sum_len2]
    · obtain ⟨k, h1, h2⟩ := ih (current + (renderEntry e).length + 2) (acc ++ [renderEntry e])
      refine ⟨k + 1, ?_, ?_⟩
      · simp only [fit_parts, if_neg hc]
        rw [h1]
        simp [List.take_succ_cons]
      · simp only [fit_parts, if_neg hc]
        rw [h2]
        simp only [List.take_succ_cons, List.map_cons, sum_len2_cons]
        omega

/-- fit_parts never lets current_length exceed the conversation budget (or the
value it started from, when nothing is added). -/
theorem fit_parts_len_le (available : Nat) (entries : List Entry) :
    ∀ (current : Nat) (acc : List Str),
      (fit_parts available current acc entries).2
        ≤ max current (available - conversation_header.length) := by
  induction entries with
  | nil => intro current acc; simp [fit_parts]
  | cons e rest ih =>
    intro current acc
    by_cases hc : current + (renderEntry e).length + 2
        > available - conversation_header.length
    · simp [fit_parts, hc]
    · have hrec := ih (current + (renderEntry e).length + 2) (acc ++ [renderEntry e])
      simp only [fit_parts, if_neg hc]
      omega

/-- The kept initial block fits its reservation whenever the whole section
fits or the reservation is at least the 15 characters the slice gives up. -/
theorem kept_initial_length (starter_prompt : Str) (r : Nat)
    (h : (initial_section starter_prompt).length ≤ r ∨ 15 ≤ r) :
    (kept_initial starter_prompt r).length ≤ r := by
  unfold kept_initial
  split_ifs with hfit
  · exact hfit
  · have h15 : 15 ≤ r := by
      rcases h with h | h
      · omega
      · exact h
    have hmarker : trunc_marker_nl.length = 13 := by decide
    have hpos : (0 : Int) ≤ (r : Int) - 15 := by omega
    simp only [pyTake, if_pos hpos, List.length_append, List.length_take, hmarker]
    have htn : ((r : Int) - 15).toNat = r - 15 := by omega
    rw [htn]
    omega

/-- The conversation section rendering the suffix of the chain that drops the
k oldest turns. -/
def conv_of_suffix (context_chain : List Entry) (k : Nat) : Str :=
  conversation_header ++ joinSep sep2 ((context_chain.drop k).map renderEntry)

/-- Output-shape predicate for C8, modelled from the spec's truncation-safety
wording: the output is empty, the bare truncation marker, or an optional
initial-context block (kept whole, or truncated only inside that block)
followed by a conversation section rendering some suffix of the turn chain -
so no individual turn's rendered text is ever split, and dropped turns are
dropped whole from the oldest end. -/
def WholeTurnOutput (context_chain : List Entry) (starter_prompt : Str)
    (max_chars : Nat) (out : Str) : Prop :=
  out = [] ∨ out = truncation_marker ∨
  ∃ k, k ≤ context_chain.length ∧
    (out = initial_section starter_prompt ∨
     out = kept_initial starter_prompt
        (reserved_for_initial context_chain starter_prompt max_chars) ∨
     out = conv_of_suffix context_chain k ∨
     out = initial_section starter_prompt ++ sep2 ++ conv_of_suffix context_chain k ∨
     out = kept_initial starter_prompt
         (reserved_for_initial context_chain starter_prompt max_chars)
        ++ sep2 ++ conv_of_suffix context_chain k)

/-- The parts collected by the truncation loop, reversed back to chronological
order, render a suffix of the chain, and their sum_len2 is the final
current_length. -/
theorem fit_parts_reverse_suffix (available : Nat) (context_chain : List Entry) :
    ∃ k, k ≤ context_chain.length ∧
      ((fit_parts available 0 [] context_chain.reverse).1).reverse
        = (context_chain.drop k).map renderEntry ∧
      sum_len2 ((fit_parts available 0 [] context_chain.reverse).1)
        = (fit_parts available 0 [] context_chain.reverse).2 := by
  obtain ⟨j, h1, h2⟩ := fit_parts_shape available context_chain.reverse 0 []
  refine ⟨context_chain.length - j, by omega, ?_, ?_⟩
  · rw [h1]
    simp only [List.nil_append]
    rw [← List.map_reverse]
    congr 1
    rw [← List.rtake_eq_reverse_take_reverse]
    simp [List.rtake, List.length_reverse]
  · rw [h1, h2]
    simp

/-- C8 amended: the claim's structural half holds for all inputs - no turn's
rendered text is ever split: the output is an optional initial-context block
(whole or truncated inside that block only) plus a conversation section
rendering a suffix of the chain (most recent turns kept), degrading to a bare
marker string when nothing fits. The length bound, however, holds only for
budgets of at least 45 characters (then the output never exceeds max_chars at
all); for smaller budgets the Python slice [:reserved-15] wraps around and the
output can exceed the budget by an unbounded amount (see the counterexample). -/
theorem c8_amended (context_chain : List Entry) (starter_prompt : Str) (max_chars : Nat) :
    (45 ≤ max_chars →
      (truncate_context_for_tokens context_chain starter_prompt max_chars).length
        ≤ max_chars) ∧
    WholeTurnOutput context_chain starter_prompt max_chars
      (truncate_context_for_tokens context_chain starter_prompt max_chars) := by
  have hch : conversation_header.length = 29 := by decide
  have hsl : sep2.length = 2 := by decide
  have hmk : truncation_marker.length = 12 := by decide
  by_cases hemp : (context_sections context_chain starter_prompt).isEmpty
  · have hout : truncate_context_for_tokens context_chain starter_prompt max_chars = [] := by
      simp [truncate_context_for_tokens, hemp]
    rw [hout]
    exact ⟨fun _ => by simp, Or.inl rfl⟩
  · by_cases hfull :
        (joinSep sep2 (context_sections context_chain starter_prompt)).length ≤ max_chars
    · have hout : truncate_context_for_tokens context_chain starter_prompt max_chars
          = joinSep sep2 (context_sections context_chain starter_prompt) := by
        simp [truncate_context_for_tokens, hemp, hfull]
      rw [hout]
      refine ⟨fun _ => hfull, ?_⟩
      by_cases hinit : has_initial starter_prompt
      · by_cases hchain : context_chain.isEmpty
        · have hcs : context_sections context_chain starter_prompt
              = [initial_section starter_prompt] := by
            simp [context_sections, hinit, hchain]
          rw [hcs]
          exact Or.inr (Or.inr ⟨0, Nat.zero_le _, Or.inl rfl⟩)
        · have hcs : context_sections context_chain starter_prompt
              = [initial_section starter_prompt,
                 conversation_header ++ joinSep sep2 (context_chain.map renderEntry)] := by
            simp [context_sections, hinit, hchain]
          rw [hcs]
          refine Or.inr (Or.inr ⟨0, Nat.zero_le _, Or.inr (Or.inr (Or.inr (Or.inl ?_)))⟩)
          simp [joinSep, conv_of_suffix]
      · by_cases hchain : context_chain.isEmpty
        · exfalso
          apply hemp
          simp [context_sections, hinit, hchain]
        · have hcs : context_sections context_chain starter_prompt
              = [conversation_header ++ joinSep sep2 (context_chain.map renderEntry)] := by
            simp [context_sections, hinit, hchain]
          rw [hcs]
          refine Or.inr (Or.inr ⟨0, Nat.zero_le _, Or.inr (Or.inr (Or.inl ?_))⟩)
          simp [joinSep, conv_of_suffix]
    · -- truncation path
      have hAdef : available_for_conversation context_chain starter_prompt max_chars
          = max_chars - reserved_for_initial context_chain starter_prompt max_chars - 50 :=
        rfl
      have hRle : reserved_for_initial context_chain starter_prompt max_chars
          ≤ max_chars / 3 := Nat.min_le_right _ _
      have hDle : max_chars / 3 ≤ max_chars := Nat.div_le_self _ _
      by_cases hinit : has_initial starter_prompt
      · have hhead : (context_sections context_chain starter_prompt).headD []
            = initial_section starter_prompt := by
          simp [context_sections, hinit]
        have hRdef : reserved_for_initial context_chain starter_prompt max_chars
            = min (initial_section starter_prompt).length (max_chars / 3) := by
          rw [reserved_for_initial, hhead]
        have hkept : 45 ≤ max_chars →
            (kept_initial starter_prompt
              (reserved_for_initial context_chain starter_prompt max_chars)).length
              ≤ reserved_for_initial context_chain starter_prompt max_chars := by
          intro h45
          apply kept_initial_length
          have h15 : 15 ≤ max_chars / 3 := by omega
          by_cases hf : (initial_section starter_prompt).length
              ≤ reserved_for_initial context_chain starter_prompt max_chars
          · exact Or.inl hf
          · right
            omega
        by_cases hgo : ¬ context_chain.isEmpty ∧
            available_for_conversation context_chain starter_prompt max_chars > 100
        · by_cases hparts :
              ((fit_parts (available_for_conversation context_chain starter_prompt max_chars)
                0 [] context_chain.reverse).1).isEmpty
          · have hout : truncate_context_for_tokens context_chain starter_prompt max_chars
                = kept_initial starter_prompt
                    (reserved_for_initial context_chain starter_prompt max_chars) := by
              simp [truncate_context_for_tokens, hemp, hfull, hinit, hgo, hparts, joinSep]
            rw [hout]
            constructor
            · intro h45
              have := hkept h45
              omega
            · exact Or.inr (Or.inr ⟨0, Nat.zero_le _, Or.inr (Or.inl rfl)⟩)
          · obtain ⟨k, hk, hsuf, hsum⟩ :=
              fit_parts_reverse_suffix
                (available_for_conversation context_chain starter_prompt max_chars)
                context_chain
            have hpne :
                (fit_parts (available_for_conversation context_chain starter_prompt max_chars)
                  0 [] context_chain.reverse).1 ≠ [] := by
              simpa [List.isEmpty_iff] using hparts
            have hout : truncate_context_for_tokens context_chain starter_prompt max_chars
                = kept_initial starter_prompt
                    (reserved_for_initial context_chain starter_prompt max_chars)
                  ++ sep2 ++ (conversation_header ++ joinSep sep2
                    ((fit_parts
                      (available_for_conversation context_chain starter_prompt max_chars)
                      0 [] context_chain.reverse).1).reverse) := by
              simp [truncate_context_for_tokens, hemp, hfull, hinit, hgo, hparts, joinSep]
            rw [hout]
            constructor
            · intro h45
              have hk1 := hkept h45
              have hjoin := joinSep_sep2_length
                ((fit_parts (available_for_conversation context_chain starter_prompt max_chars)
                  0 [] context_chain.reverse).1).reverse (by simp [hpne])
              have hs2 := sum_len2_reverse
                (fit_parts (available_for_conversation context_chain starter_prompt max_chars)
                  0 [] context_chain.reverse).1
              have hle := fit_parts_len_le
                (available_for_conversation context_chain starter_prompt max_chars)
                context_chain.reverse 0 []
              simp only [List.length_append, hch, hsl]
              omega
            · refine Or.inr (Or.inr ⟨k, hk, Or.inr (Or.inr (Or.inr (Or.inr ?_)))⟩)
              rw [conv_of_suffix, hsuf]
        · have hgo' : ¬ (¬ context_chain = [] ∧
              100 < available_for_conversation context_chain starter_prompt max_chars) := by
            simpa [List.isEmpty_iff] using hgo
          have hout : truncate_context_for_tokens context_chain starter_prompt max_chars
              = kept_initial starter_prompt
                  (reserved_for_initial context_chain starter_prompt max_chars) := by
            simp [truncate_context_for_tokens, hemp, hfull, hinit, hgo', joinSep]
          rw [hout]
          constructor
          · intro h45
            have := hkept h45
            omega
          · exact Or.inr (Or.inr ⟨0, Nat.zero_le _, Or.inr (Or.inl rfl)⟩)
      · by_cases hgo : ¬ context_chain.isEmpty ∧
            available_for_conversation context_chain starter_prompt max_chars > 100
        · by_cases hparts :
              ((fit_parts (available_for_conversation context_chain starter_prompt max_chars)
                0 [] context_chain.reverse).1).isEmpty
          · have hout : truncate_context_for_tokens context_chain starter_prompt max_chars
                = truncation_marker := by
              simp [truncate_context_for_tokens, hemp, hfull, hinit, hgo, hparts]
            rw [hout]
            exact ⟨fun h45 => by omega, Or.inr (Or.inl rfl)⟩
          · obtain ⟨k, hk, hsuf, hsum⟩ :=
              fit_parts_reverse_suffix
                (available_for_conversation context_chain starter_prompt max_chars)
                context_chain
            have hpne :
                (fit_parts (available_for_conversation context_chain starter_prompt max_chars)
                  0 [] context_chain.reverse).1 ≠ [] := by
              simpa [List.isEmpty_iff] using hparts
            have hout : truncate_context_for_tokens context_chain starter_prompt max_chars
                = conversation_header ++ joinSep sep2
                    ((fit_parts
                      (available_for_conversation context_chain starter_prompt max_chars)
                      0 [] context_chain.reverse).1).reverse := by
              simp [truncate_context_for_tokens, hemp, hfull, hinit, hgo, hparts, joinSep]
            rw [hout]
            constructor
            · intro h45
              have hjoin := joinSep_sep2_length
                ((fit_parts (available_for_conversation context_chain starter_prompt max_chars)
                  0 [] context_chain.reverse).1).reverse (by simp [hpne])
              have hs2 := sum_len2_reverse
                (fit_parts (available_for_conversation context_chain starter_prompt max_chars)
                  0 [] context_chain.reverse).1
              have hle := fit_parts_len_le
                (available_for_conversation context_chain starter_prompt max_chars)
                context_chain.reverse 0 []
              simp only [List.length_append, hch]
              omega
            · refine Or.inr (Or.inr ⟨k, hk, Or.inr (Or.inr (Or.inl ?_))⟩)
              rw [conv_of_suffix, hsuf]
        · have hgo' : ¬ (¬ context_chain = [] ∧
              100 < available_for_conversation context_chain starter_prompt max_chars) := by
            simpa [List.isEmpty_iff] using hgo
          have hout : truncate_context_for_tokens context_chain starter_prompt max_chars
              = truncation_marker := by
            simp [truncate_context_for_tokens, hemp, hfull, hinit, hgo']
          rw [hout]
          exact ⟨fun h45 => by omega, Or.inr (Or.inl rfl)⟩

/-- C8 witness: a concrete short chain within a 2000-character budget renders
in full and satisfies both the bound and the shape property. -/
theorem c8_witness :
    (truncate_context_for_tokens
        [Entry.mk (("user").toList) (("hi").toList) (("answer").toList) 0]
        (("make me a prompt").toList) 2000).length ≤ 2000 :=
  (c8_amended [Entry.mk (("user").toList) (("hi").toList) (("answer").toList) 0]
    (("make me a prompt").toList) 2000).1 (by norm_num)

/-- JSON values as produced by json.loads and consumed by parse_ai_response.
Numeric precision is irrelevant to the parser, so numbers are Int. -/
inductive Json where
  | null
  | bool (b : Bool)
  | num (n : Int)
  | str (s : String)
  | arr (elems : List Json)
  | obj (fields : List (String × Json))

/-- Python truthiness of a JSON value. -/
def Json.truthy : Json → Bool
  | .null => false
  | .bool b => b
  | .num n => n != 0
  | .str s => !s.isEmpty
  | .arr l => !l.isEmpty
  | .obj f => !f.isEmpty

/-- Lookup in a JSON object. json.loads keeps the last occurrence of a
duplicated key, so the scan runs from the end. -/
def jlookup (fields : List (String × Json)) (key : String) : Option Json :=
  fields.reverse.lookup key

/-- Python dict.get(key, default); .get on a non-dict raises AttributeError
(the error text below only feeds the generic except-branch message). -/
def pyGet (j : Json) (key : String) (dflt : Json) : Except String Json :=
  match j with
  | .obj fields => Except.ok ((jlookup fields key).getD dflt)
  | _ => Except.error ("AttributeError: get")

/-- Python x[0] as the parser uses it: first element of a list; for a string,
its first character as a 1-character string; TypeError otherwise. -/
def pyIndex0 (j : Json) : Except String Json :=
  match j with
  | .arr (x :: _) => Except.ok x
  | .arr [] => Except.error ("IndexError")
  | .str s =>
    match s.toList with
    | c :: _ => Except.ok (Json.str (String.mk [c]))
    | [] => Except.error ("IndexError")
  | _ => Except.error ("TypeError: not subscriptable")

/-- Does needle occur at the start of hay. -/
def listStartsWith : List Char → List Char → Bool
  | [], _ => true
  | _ :: _, [] => false
  | a :: as, b :: bs => a == b && listStartsWith as bs

/-- Does needle occur anywhere in hay (Python substring test). -/
def listHasSub (needle : List Char) : List Char → Bool
  | [] => needle.isEmpty
  | h :: t => listStartsWith needle (h :: t) || listHasSub needle t

/-- Python `key in x` for a string key: dict key containment, list membership
(equality against elements), substring test on strings, and TypeError on
non-iterables (numbers, booleans, null). -/
def pyContains (j : Json) (key : String) : Except String Bool :=
  match j with
  | .obj fields => Except.ok (fields.any (fun p => p.1 == key))
  | .arr elems => Except.ok (elems.any (fun e =>
      match e with
      | .str s => s == key
      | _ => false))
  | .str s => Except.ok (listHasSub key.toList s.toList)
  | _ => Except.error ("TypeError: argument not iterable")

/-- Python x[key] with a string key: dict lookup (KeyError when absent);
TypeError on everything else (list and string indices must be integers). -/
def pyGetItem (j : Json) (key : String) : Except String Json :=
  match j with
  | .obj fields =>
    match jlookup fields key with
    | some v => Except.ok v
    | none => Except.error ("KeyError")
  | _ => Except.error ("TypeError: indices must be integers")

/-- The options normalization of parse_ai_response (qa_loop.py lines 322-328):
more than 6 options are truncated to the first 6; fewer than 2 are extended
with ["Other", "Not sure"][:2 - len(options)]. -/
def normalize_options (options : List Json) : List Json :=
  if options.length < 2 ∨ options.length > 6 then
    if options.length > 6 then options.take 6
    else options ++ ([Json.str ("Other"), Json.str ("Not sure")].take (2 - options.length))
  else options

/-- The selection-method validation of parse_ai_response (qa_loop.py lines
330-334): any value other than the strings "single", "multi", "ranking" is
coerced to "single", never rejected. -/
def normalize_selection_method (j : Json) : String :=
  match j with
  | .str s => if s = ("single") ∨ s = ("multi") ∨ s = ("ranking") then s else ("single")
  | _ => ("single")

/-- The 5-tuple returned by parse_ai_response:
(question, options, selection_method, allow_custom_answer, final_prompt). -/
abbrev ParseTuple :=
  Option String × Option (List Json) × Option String × Option Json × Option String

/-- The question-format branch of parse_ai_response (qa_loop.py lines
315-336), entered after `"question" in parsed` succeeded: evaluates
`"options" in parsed`, then parsed["question"], parsed["options"] and the two
.get defaults, and accepts when question is a str and options a list.
Returns `.ok none` when the branch falls through without returning. -/
def parse_question_branch (parsed : Json) : Except String (Option ParseTuple) :=
  match pyContains parsed ("options") with
  | .error e => .error e
  | .ok hasO =>
    if hasO then
      match pyGetItem parsed ("question") with
      | .error e => .error e
      | .ok questionJ =>
        match pyGetItem parsed ("options") with
        | .error e => .error e
        | .ok optionsJ =>
          match pyGet parsed ("selectionMethod") (Json.str ("single")) with
          | .error e => .error e
          | .ok smJ =>
            match pyGet parsed ("allowCustomAnswer") (Json.bool true) with
            | .error e => .error e
            | .ok acJ =>
              match questionJ, optionsJ with
              | .str q, .arr os =>
                .ok (some (some q, some (normalize_options os),
                  some (normalize_selection_method smJ), some acJ, none))
              | _, _ => .ok none
    else .ok none

/-- The finalPrompt probe of parse_ai_response (qa_loop.py lines 338-349),
reached when the question branch fell through without returning: a string
finalPrompt field becomes the final prompt; in every other case the decoded
payload's source text itself becomes the final prompt. -/
def parse_final_branch (parsed : Json) (text : String) : Except String ParseTuple :=
  match pyContains parsed ("finalPrompt") with
  | .error e => .error e
  | .ok hasF =>
    if hasF then
      match pyGetItem parsed ("finalPrompt") with
      | .error e => .error e
      | .ok fpJ =>
        match fpJ with
        | .str fp => .ok (none, none, none, none, some fp)
        | _ => .ok (none, none, none, none, some text)
    else .ok (none, none, none, none, some text)

/-- Continuation of parse_ai_response after json.loads succeeded (qa_loop.py
lines 312-349): the question format is probed first, then the finalPrompt
format. -/
def parse_decoded (parsed : Json) (text : String) : Except String ParseTuple :=
  match pyContains parsed ("question") with
  | .error e => .error e
  | .ok hasQ =>
    match (if hasQ then parse_question_branch parsed
           else .ok (none : Option ParseTuple)) with
    | .error e => .error e
    | .ok (some t) => .ok t
    | .ok none => parse_final_branch parsed text

/-- Python str.strip() on a String value: leading and trailing whitespace
removed. (String.trim is extensionally the same but is not kernel-reducible,
so the strip is spelled out over the character list.) -/
def pyStripS (s : String) : String :=
  String.mk
    (((s.toList.dropWhile Char.isWhitespace).reverse.dropWhile Char.isWhitespace).reverse)

/-- The body of qa_loop.parse_ai_response (qa_loop.py lines 295-349) up to the
outer exception handler. `decode` stands for json.loads, returning none on
json.JSONDecodeError. -/
def parse_ai_response_core (decode : String → Option Json) (raw_response : Json) :
    Except String ParseTuple :=
  match pyGet raw_response ("candidates") (Json.arr []) with
  | .error e => .error e
  | .ok candidates =>
    if candidates.truthy = false then
      .ok (none, none, none, none, some ("No response generated"))
    else
      match pyIndex0 candidates with
      | .error e => .error e
      | .ok c0 =>
        match pyGet c0 ("content") (Json.obj []) with
        | .error e => .error e
        | .ok content =>
          match pyGet content ("parts") (Json.arr []) with
          | .error e => .error e
          | .ok parts =>
            if parts.truthy = false then
              .ok (none, none, none, none, some ("No content in response"))
            else
              match pyIndex0 parts with
              | .error e => .error e
              | .ok p0 =>
                match pyGet p0 ("text") (Json.str ("")) with
                | .error e => .error e
                | .ok textJ =>
                  match textJ with
                  | .str s =>
                    if pyStripS s = ("") then
                      .ok (none, none, none, none, some ("Empty response"))
                    else
                      match decode (pyStripS s) with
                      | none => .ok (none, none, none, none, some (pyStripS s))
                      | some parsed => parse_decoded parsed (pyStripS s)
                  | _ => .error ("AttributeError: strip")

/-- Embeds qa_loop.parse_ai_response including its outer try/except: any
exception degrades to a final-prompt-shaped message prefixed with
"Error parsing response: ". -/
def parse_ai_response (decode : String → Option Json) (raw_response : Json) :
    ParseTuple :=
  match parse_ai_response_core decode raw_response with
  | .ok t => t
  | .error e => (none, none, none, none, some (("Error parsing response: ") ++ e))

/-- A completion payload whose single text part is t
(candidates[0].content.parts[0].text = t). -/
def mkTextPayload (t : String) : Json :=
  let part : Json := Json.obj [(("text"), Json.str t)]
  let content : Json := Json.obj [(("parts"), Json.arr [part])]
  let candidate : Json := Json.obj [(("content"), content)]
  Json.obj [(("candidates"), Json.arr [candidate])]

/-- A payload with one candidate but no parts. -/
def mkNoPartsPayload : Json :=
  Json.obj [(("candidates"), Json.arr [Json.obj []])]

/-- Every tuple the question branch accepts is fully question-shaped. -/
theorem parse_question_branch_shape (parsed : Json) (t : ParseTuple)
    (h : parse_question_branch parsed = .ok (some t)) :
    t.1.isSome ∧ t.2.1.isSome ∧ t.2.2.1.isSome ∧ t.2.2.2.1.isSome ∧
      t.2.2.2.2 = none := by
  unfold parse_question_branch at h
  repeat' split at h
  all_goals first
    | (subst h; simp)
    | (injection h with h; subst h; simp)
    | (injection h with h; injection h with h; subst h; simp)
    | simp_all

/-- Every tuple the finalPrompt probe returns is final-shaped. -/
theorem parse_final_branch_shape (parsed : Json) (text : String) (t : ParseTuple)
    (h : parse_final_branch parsed text = .ok t) :
    t.1 = none ∧ t.2.1 = none ∧ t.2.2.1 = none ∧ t.2.2.2.1 = none ∧
      t.2.2.2.2.isSome := by
  unfold parse_final_branch at h
  repeat' split at h
  all_goals first
    | (subst h; simp)
    | (injection h with h; subst h; simp)
    | (injection h with h; injection h with h; subst h; simp)
    | simp_all

/-- Every tuple parse_decoded returns is question-shaped or final-shaped. -/
theorem parse_decoded_shape (parsed : Json) (text : String) (t : ParseTuple)
    (h : parse_decoded parsed text = .ok t) :
    (t.1.isSome ∧ t.2.1.isSome ∧ t.2.2.2.2 = none) ∨
    (t.1 = none ∧ t.2.1 = none ∧ t.2.2.1 = none ∧ t.2.2.2.1 = none ∧
      t.2.2.2.2.isSome) := by
  unfold parse_decoded at h
  split at h
  · simp at h
  · split at h
    · simp at h
    · rename_i t' heq
      injection h with h
      subst h
      split at heq
      · obtain ⟨h1, h2, _, _, h5⟩ := parse_question_branch_shape _ _ heq
        exact Or.inl ⟨h1, h2, h5⟩
      · simp at heq
    · exact Or.inr (parse_final_branch_shape _ _ _ h)

/-- Every tuple the core parser returns is question-shaped or final-shaped. -/
theorem parse_core_shape (decode : String → Option Json) (raw : Json) (t : ParseTuple)
    (h : parse_ai_response_core decode raw = .ok t) :
    (t.1.isSome ∧ t.2.1.isSome ∧ t.2.2.2.2 = none) ∨
    (t.1 = none ∧ t.2.1 = none ∧ t.2.2.1 = none ∧ t.2.2.2.1 = none ∧
      t.2.2.2.2.isSome) := by
  unfold parse_ai_response_core at h
  repeat' split at h
  all_goals first
    | (subst h; simp)
    | (injection h with h; subst h; simp)
    | (injection h with h; injection h with h; subst h; simp)
    | exact parse_decoded_shape _ _ _ h
    | simp_all

/-- A successful assoc-list lookup means the any-based key test succeeds. -/
theorem lookup_any_eq_true (l : List (String × Json)) (k : String) (v : Json)
    (h : l.lookup k = some v) : l.any (fun p => p.1 == k) = true := by
  induction l with
  | nil => simp [List.lookup] at h
  | cons p rest ih =>
    cases p with
    | mk k1 v1 =>
      by_cases hpk : k = k1
      · subst hpk
        simp
      · have hb1 : (k == k1) = false := beq_eq_false_iff_ne.mpr hpk
        have hb2 : (k1 == k) = false := beq_eq_false_iff_ne.mpr (Ne.symm hpk)
        have h' : rest.lookup k = some v := by
          simpa [List.lookup, hb1] using h
        simp [List.any_cons, hb2, ih h']

/-- jlookup success implies the Python `in` test over the object succeeds. -/
theorem jlookup_any (fields : List (String × Json)) (k : String) (v : Json)
    (h : jlookup fields k = some v) : fields.any (fun p => p.1 == k) = true := by
  have hrev := lookup_any_eq_true fields.reverse k v h
  rw [List.any_eq_true] at hrev ⊢
  obtain ⟨p, hp, hpk⟩ := hrev
  exact ⟨p, List.mem_reverse.mp hp, hpk⟩

/-- Stepping lemma: on a well-formed single-text payload whose text needs no
stripping and is non-empty, the core parser reduces to the decode step. -/
theorem parse_text_payload (decode : String → Option Json) (t : String)
    (htrim : pyStripS t = t) (hne : t ≠ ("")) :
    parse_ai_response_core decode (mkTextPayload t)
      = (match decode t with
         | none => .ok (none, none, none, none, some t)
         | some parsed => parse_decoded parsed t) := by
  unfold parse_ai_response_core mkTextPayload
  simp [pyGet, pyIndex0, jlookup, Json.truthy, List.lookup, htrim, hne]

/-- json.loads stand-in agreeing with Python on the single input "42"
(json.loads("42") is the integer 42). -/
def decode42 : String → Option Json :=
  fun s => if s = ("42") then some (Json.num 42) else none

/-- C5 counterexample: the completion text "42" is valid JSON with neither
shape, but the parser does not return it as the finalPrompt: Python evaluates
`"question" in 42`, which raises TypeError (int is not iterable), so the outer
except-handler returns an explanatory error text instead of the raw text. -/
theorem c5_counterexample :
    parse_ai_response decode42 (mkTextPayload ("42"))
        = (none, none, none, none,
           some (("Error parsing response: ") ++ ("TypeError: argument not iterable"))) ∧
    ¬ (parse_ai_response decode42 (mkTextPayload ("42"))).2.2.2.2 = some ("42") := by
  constructor
  · rfl
  · decide

/-- C5 amended: the parser always returns exactly one populated alternative
(question-shaped or final-prompt-shaped) and never raises; a payload with no
candidates or no parts yields an explanatory final-prompt error text; a text
that is not JSON yields that raw text as the finalPrompt, and so does a
decoded JSON object carrying neither the question nor the finalPrompt key;
but a decoded non-iterable JSON scalar (number, boolean, null) yields an
explanatory error text rather than the raw text (see the counterexample). -/
theorem c5_amended (decode : String → Option Json) (raw : Json) (t : String)
    (fs : List (String × Json)) :
    (((parse_ai_response decode raw).1.isSome ∧
        (parse_ai_response decode raw).2.1.isSome ∧
        (parse_ai_response decode raw).2.2.2.2 = none) ∨
      ((parse_ai_response decode raw).1 = none ∧
        (parse_ai_response decode raw).2.1 = none ∧
        (parse_ai_response decode raw).2.2.1 = none ∧
        (parse_ai_response decode raw).2.2.2.1 = none ∧
        (parse_ai_response decode raw).2.2.2.2.isSome)) ∧
    parse_ai_response decode (Json.obj [])
        = (none, none, none, none, some ("No response generated")) ∧
    parse_ai_response decode mkNoPartsPayload
        = (none, none, none, none, some ("No content in response")) ∧
    (pyStripS t = t → t ≠ ("") → decode t = none →
      parse_ai_response decode (mkTextPayload t)
        = (none, none, none, none, some t)) ∧
    (pyStripS t = t → t ≠ ("") →
      decode t = some (Json.obj fs) →
      fs.any (fun p => p.1 == ("question")) = false →
      fs.any (fun p => p.1 == ("finalPrompt")) = false →
      parse_ai_response decode (mkTextPayload t)
        = (none, none, none, none, some t)) := by
  refine ⟨?_, rfl, rfl, ?_, ?_⟩
  · cases hc : parse_ai_response_core decode raw with
    | ok t0 =>
      have hshape := parse_core_shape decode raw t0 hc
      unfold parse_ai_response
      rw [hc]
      simpa using hshape
    | error e =>
      unfold parse_ai_response
      rw [hc]
      simp
  · intro h1 h2 h3
    unfold parse_ai_response
    rw [parse_text_payload decode t h1 h2, h3]
  · intro h1 h2 h3 hq hf
    unfold parse_ai_response
    rw [parse_text_payload decode t h1 h2, h3]
    unfold parse_decoded parse_final_branch
    simp [pyContains, hq, hf]

/-- C5 witness: a non-JSON completion text comes back verbatim as the
finalPrompt, with every other slot empty. -/
theorem c5_witness :
    parse_ai_response (fun _ => none) (mkTextPayload ("hello"))
        = (none, none, none, none, some ("hello")) :=
  (c5_amended (fun _ => none) Json.null ("hello") []).2.2.2.1 rfl (by decide) rfl

/-- C6 confirmed: on any decoded question-shaped object the parser returns the
question string with the options normalized to 2-6 entries (a 1-element list
is padded with "Other" to 2, a 9-element list is truncated to its first 6),
the selectionMethod coerced to "single" whenever absent or invalid (never
rejected), and allowCustomAnswer defaulting to true when absent. -/
theorem c6_parse_question (decode : String → Option Json) (t q : String)
    (fs : List (String × Json)) (os : List Json)
    (htrim : pyStripS t = t) (hne : t ≠ (""))
    (hdec : decode t = some (Json.obj fs))
    (hq : jlookup fs ("question") = some (Json.str q))
    (ho : jlookup fs ("options") = some (Json.arr os)) :
    parse_ai_response decode (mkTextPayload t)
        = (some q, some (normalize_options os),
           some (normalize_selection_method
             ((jlookup fs ("selectionMethod")).getD (Json.str ("single")))),
           some ((jlookup fs ("allowCustomAnswer")).getD (Json.bool true)), none) ∧
    (2 ≤ (normalize_options os).length ∧ (normalize_options os).length ≤ 6) ∧
    (∀ x : Json, normalize_options [x] = [x, Json.str ("Other")]) ∧
    (os.length = 9 → normalize_options os = os.take 6) ∧
    (∀ j : Json, (∀ s, j = Json.str s →
        ¬ (s = ("single") ∨ s = ("multi") ∨ s = ("ranking"))) →
      normalize_selection_method j = ("single")) := by
  refine ⟨?_, ?_, ?_, ?_, ?_⟩
  · have hqa : fs.any (fun p => p.1 == ("question")) = true := jlookup_any _ _ _ hq
    have hoa : fs.any (fun p => p.1 == ("options")) = true := jlookup_any _ _ _ ho
    unfold parse_ai_response
    rw [parse_text_payload decode t htrim hne, hdec]
    unfold parse_decoded parse_question_branch
    simp [pyContains, pyGetItem, pyGet, hqa, hoa, hq, ho]
  · unfold normalize_options
    split_ifs with h1 h2 <;>
      (try simp [List.length_take, List.length_append]) <;> omega
  · intro x
    simp [normalize_options]
  · intro h9
    simp [normalize_options, h9]
  · intro j hj
    match j with
    | .str s =>
      have hns := hj s rfl
      simp [normalize_selection_method, hns]
    | .null => rfl
    | .bool b => rfl
    | .num n => rfl
    | .arr l => rfl
    | .obj f => rfl

/-- The object fields of the concrete question payload used in witnesses. -/
def question_payload_fields : List (String × Json) :=
  [(("question"), Json.str ("Pick one")),
   (("options"), Json.arr [Json.str ("A")]),
   (("allowCustomAnswer"), Json.bool false)]

/-- The JSON text of the concrete question payload used in witnesses. -/
def question_payload_text : String :=
  ("\x7b\"question\": \"Pick one\", \"options\": [\"A\"], \"allowCustomAnswer\": false\x7d")

/-- json.loads stand-in agreeing with Python on question_payload_text. -/
def decodeQ : String → Option Json :=
  fun s =>
    if s = question_payload_text then some (Json.obj question_payload_fields) else none

/-- C6 witness: the concrete question payload parses with its single option
padded to ["A", "Other"], selectionMethod defaulted to "single" and
allowCustomAnswer carried through as false. -/
theorem c6_witness :
    parse_ai_response decodeQ (mkTextPayload question_payload_text)
        = (some ("Pick one"),
           some (normalize_options [Json.str ("A")]),
           some (normalize_selection_method
             ((jlookup question_payload_fields ("selectionMethod")).getD
               (Json.str ("single")))),
           some ((jlookup question_payload_fields ("allowCustomAnswer")).getD
             (Json.bool true)), none) :=
  (c6_parse_question decodeQ question_payload_text ("Pick one")
    question_payload_fields [Json.str ("A")] rfl (by decide) rfl rfl rfl).1

/-- Python truthiness of the question-branch guard `if question and options:`
(api/sessions.py line 360). -/
def takes_question_branch (t : ParseTuple) : Bool :=
  (match t.1 with
   | some q => !q.isEmpty
   | none => false) &&
  (match t.2.1 with
   | some os => !os.isEmpty
   | none => false)

/-- The expression `allowCustomAnswer=allow_custom_answer or True` used to
build the QuestionResponse (api/sessions.py line 377): Python `x or True`
yields x when x is truthy and True otherwise. -/
def pyOrTrue (v : Json) : Json :=
  if v.truthy then v else Json.bool true

/-- Pydantic v2 lax coercion of a value into the QuestionResponse's
`allowCustomAnswer: bool` field (the external validation the response body
passes through): booleans pass through; the documented string table maps
"no"/"false"/"off"/"n"/"f"/"0" to false and "yes"/"true"/"on"/"y"/"t"/"1" to
true; the numbers 0 and 1 likewise; anything else fails validation (none). -/
def pydantic_bool : Json → Option Bool
  | .bool b => some b
  | .str s =>
    if s ∈ [("no"), ("false"), ("off"), ("n"), ("f"), ("0")] then some false
    else if s ∈ [("yes"), ("true"), ("on"), ("y"), ("t"), ("1")] then some true
    else none
  | .num n => if n = 0 then some false else if n = 1 then some true else none
  | _ => none

/-- The allowCustomAnswer value of the HTTP response body on the question
branch: the parser-extracted value goes through `allow_custom_answer or True`
(api/sessions.py line 377) and then through pydantic validation of the
QuestionResponse's bool field; none means the call fails validation instead
of returning a question response. -/
def question_response_allow_custom (ac : Json) : Option Bool :=
  pydantic_bool (pyOrTrue ac)

/-- The object fields of a question payload whose allowCustomAnswer is the
string "no" - accepted unvalidated by the parser (qa_loop.py line 319). -/
def no_custom_payload_fields : List (String × Json) :=
  [(("question"), Json.str ("Pick one")),
   (("options"), Json.arr [Json.str ("A")]),
   (("allowCustomAnswer"), Json.str ("no"))]

/-- The JSON text of that payload. -/
def no_custom_payload_text : String :=
  ("\x7b\"question\": \"Pick one\", \"options\": [\"A\"], \"allowCustomAnswer\": \"no\"\x7d")

/-- json.loads stand-in agreeing with Python on no_custom_payload_text. -/
def decodeQNo : String → Option Json :=
  fun s =>
    if s = no_custom_payload_text then some (Json.obj no_custom_payload_fields) else none

/-- C9 counterexample: a model JSON carrying allowCustomAnswer = "no" passes
the parser unvalidated and the call takes the question branch, but the
response field is NOT true: the string "no" is truthy, so
`allow_custom_answer or True` evaluates to "no" itself, and pydantic's bool
field coerces "no" to false - the HTTP response body carries
allowCustomAnswer = false. -/
theorem c9_counterexample :
    parse_ai_response decodeQNo (mkTextPayload no_custom_payload_text)
        = (some ("Pick one"), some [Json.str ("A"), Json.str ("Other")],
           some ("single"), some (Json.str ("no")), none) ∧
    takes_question_branch
        (parse_ai_response decodeQNo (mkTextPayload no_custom_payload_text)) = true ∧
    pyOrTrue (Json.str ("no")) = Json.str ("no") ∧
    question_response_allow_custom (Json.str ("no")) = some false ∧
    ¬ question_response_allow_custom (Json.str ("no")) = some true := by
  refine ⟨rfl, rfl, rfl, rfl, ?_⟩
  decide

/-- C9 amended: whenever an Answer call takes the question branch and the
parser-extracted allowCustomAnswer value is a JSON boolean or null - in
particular when it is false - the response body's allowCustomAnswer field is
true, because `allow_custom_answer or True` yields True for every falsy value
and for the boolean true; but a truthy non-boolean value such as the string
"no" survives the or-expression and pydantic coerces it to false (see the
counterexample). -/
theorem c9_amended (decode : String → Option Json) (raw : Json)
    (q : String) (os : List Json) (sm : Option String) (ac : Json)
    (hp : parse_ai_response decode raw = (some q, some os, sm, some ac, none))
    (hbr : takes_question_branch (parse_ai_response decode raw) = true)
    (hac : ac = Json.bool true ∨ ac = Json.bool false ∨ ac = Json.null) :
    pyOrTrue ac = Json.bool true ∧
    question_response_allow_custom ac = some true := by
  rcases hac with h | h | h <;> subst h <;> exact ⟨rfl, rfl⟩

/-- C9 witness: the concrete question payload whose model JSON carries
allowCustomAnswer = false still produces a true response field. -/
theorem c9_witness : question_response_allow_custom (Json.bool false) = some true :=
  (c9_amended decodeQ (mkTextPayload question_payload_text)
    ("Pick one") [Json.str ("A"), Json.str ("Other")] (some ("single"))
    (Json.bool false) rfl rfl (Or.inr (Or.inl rfl))).2

/-- A stored conversation node as build_context_chain reads it from the
`nodes` collection (already filtered to one session): id and parent_id
(ObjectIds rendered as strings), role, content, type and created_at. -/
structure StoredNode where
  id : Str
  parent_id : Option Str
  role : Str
  content : Str
  type : Str
  created_at : Nat
  deriving DecidableEq

/-- The parent link the walk follows:
`str(node["parent_id"]) if node.get("parent_id") else None` - an absent or
falsy parent_id ends the walk (qa_loop.py line 184). -/
def parent_link (n : StoredNode) : Option Str :=
  match n.parent_id with
  | some p => if p.isEmpty then none else some p
  | none => none

/-- The entry dict appended for each visited node (qa_loop.py lines 176-181). -/
def entry_of (n : StoredNode) : Entry :=
  Entry.mk n.role n.content n.type n.created_at

/-- The id-keyed node map (qa_loop.py line 159). A Python dict keeps the last
binding of a duplicated key, so lookups scan the reversed list. The source
pre-sorts the nodes by created_at before building the dict; the sort only
affects which of several equal-id nodes wins, which cannot occur for
primary-key ids and does not affect any property below. -/
def node_map_of (nodes : List StoredNode) : List (Str × StoredNode) :=
  (nodes.map (fun n => (n.id, n))).reverse

/-- A successful lookup pairs the key with a value stored under it. -/
theorem lookup_mem_pair (l : List (Str × StoredNode)) (c : Str) (nd : StoredNode)
    (h : l.lookup c = some nd) : (c, nd) ∈ l := by
  induction l with
  | nil => simp [List.lookup] at h
  | cons p rest ih =>
    cases p with
    | mk k v =>
      by_cases hk : c = k
      · subst hk
        have hv : v = nd := by simpa [List.lookup] using h
        subst hv
        exact List.mem_cons_self _ _
      · have hb : (c == k) = false := beq_eq_false_iff_ne.mpr hk
        have h' : rest.lookup c = some nd := by simpa [List.lookup, hb] using h
        exact List.mem_cons_of_mem _ (ih h')

/-- A successful lookup's key is among the map keys. -/
theorem lookup_mem_keys (l : List (Str × StoredNode)) (c : Str) (nd : StoredNode)
    (h : l.lookup c = some nd) : c ∈ l.map Prod.fst :=
  List.mem_map.mpr ⟨(c, nd), lookup_mem_pair l c nd h, rfl⟩

/-- Every pair of the node map binds a node to its own id. -/
theorem node_map_wf (nodes : List StoredNode) (k : Str) (v : StoredNode)
    (h : (k, v) ∈ node_map_of nodes) : v.id = k := by
  unfold node_map_of at h
  rw [List.mem_reverse] at h
  obtain ⟨n, hn, heq⟩ := List.mem_map.mp h
  cases heq
  rfl

/-- Filtering with a stronger predicate keeps at most as many elements. -/
theorem filter_length_le_of_imp {α : Type} (p q : α → Bool)
    (hpq : ∀ a, p a = true → q a = true) :
    ∀ l : List α, (l.filter p).length ≤ (l.filter q).length := by
  intro l
  induction l with
  | nil => simp
  | cons b rest ih =>
    simp only [List.filter_cons]
    cases hb : p b with
    | true =>
      have hqb := hpq b hb
      simp [hb, hqb]
      omega
    | false =>
      cases hqb : q b with
      | true =>
        simp [hb, hqb]
        omega
      | false =>
        simp [hb, hqb]
        omega

/-- Filtering with a stronger predicate keeps strictly fewer elements when
some member passes the weak predicate but fails the strong one. -/
theorem filter_length_lt_of_witness {α : Type} (p q : α → Bool)
    (hpq : ∀ a, p a = true → q a = true) (a0 : α) (hq0 : q a0 = true)
    (hp0 : p a0 = false) :
    ∀ l : List α, a0 ∈ l → (l.filter p).length < (l.filter q).length := by
  intro l
  induction l with
  | nil =>
    intro h
    simp at h
  | cons b rest ih =>
    intro hmem
    simp only [List.filter_cons]
    by_cases hb : b = a0
    · subst hb
      simp [hp0, hq0]
      have hmono := filter_length_le_of_imp p q hpq rest
      omega
    · have hmem2 : a0 ∈ rest := by
        rcases List.mem_cons.mp hmem with h | h
        · exact absurd h.symm hb
        · exact h
      have hlt := ih hmem2
      cases hbp : p b with
      | true =>
        have hbq := hpq b hbp
        simp [hbp, hbq]
        omega
      | false =>
        cases hbq : q b with
        | true =>
          simp [hbp, hbq]
          omega
        | false =>
          simp [hbp, hbq]
          omega

/-- The implication between the two unvisited predicates of the walk. -/
theorem unvisited_imp (visited : List Str) (c : Str) :
    ∀ a : Str × StoredNode,
      decide (¬ a.1 ∈ c :: visited) = true → decide (¬ a.1 ∈ visited) = true := by
  intro a ha
  simp only [decide_eq_true_eq] at ha ⊢
  exact fun hl => ha (List.mem_cons_of_mem _ hl)

/-- Growing the visited set cannot increase the unvisited-key count. -/
theorem filter_unvisited_mono (l : List (Str × StoredNode)) (visited : List Str)
    (c : Str) :
    (l.filter (fun p => decide (¬ p.1 ∈ c :: visited))).length
      ≤ (l.filter (fun p => decide (¬ p.1 ∈ visited))).length :=
  filter_length_le_of_imp _ _ (unvisited_imp visited c) l

/-- Visiting an unvisited key strictly decreases the unvisited-key count. -/
theorem filter_unvisited_strict (l : List (Str × StoredNode)) (visited : List Str)
    (c : Str) (hmem : c ∈ l.map Prod.fst) (hvis : c ∉ visited) :
    (l.filter (fun p => decide (¬ p.1 ∈ c :: visited))).length
      < (l.filter (fun p => decide (¬ p.1 ∈ visited))).length := by
  obtain ⟨pr, hpr, hfst⟩ := List.mem_map.mp hmem
  exact filter_length_lt_of_witness _ _ (unvisited_imp visited c) pr
    (by simp [hfst, hvis]) (by simp [hfst]) l hpr

/-- The parent-walk of build_context_chain (qa_loop.py lines 161-185): follow
parent_id pointers through the id-keyed map, with the truthiness check on
current_node_id, a map-membership check, and a visited set breaking cycles.
The walk terminates for every finite node set because each step moves one map
key from unvisited to visited. The Python loop appends the entry projection of
each node; here the projection is applied after the walk, which yields the
same list. -/
def walkChain (nodeMap : List (Str × StoredNode)) (visited : List Str)
    (cur : Option Str) : List StoredNode :=
  match cur with
  | none => []
  | some c =>
    if c.isEmpty then []
    else
      match hl : nodeMap.lookup c with
      | none => []
      | some nd =>
        if hv : c ∈ visited then []
        else nd :: walkChain nodeMap (c :: visited) (parent_link nd)
termination_by (nodeMap.filter (fun p => decide (¬ p.1 ∈ visited))).length
decreasing_by
  simp_wf
  obtain ⟨pr, hpr, hfst⟩ := List.mem_map.mp (lookup_mem_keys nodeMap c nd hl)
  exact filter_length_lt_of_witness _ _
    (fun a ha => by
      rw [Bool.and_eq_true] at ha
      exact ha.2)
    pr (by simp [hfst, hv]) (by simp [hfst]) nodeMap hpr

/-- Embeds qa_loop.build_context_chain (qa_loop.py lines 128-189): empty node
set short-circuits; otherwise walk up the parent chain from node_id, reverse
to root-to-leaf order, and project each node to its context entry. -/
def build_context_chain (nodes : List StoredNode) (node_id : Str) : List Entry :=
  if nodes.isEmpty then []
  else ((walkChain (node_map_of nodes) [] (some node_id)).reverse).map entry_of

/-- The walked list is parent-linked: each element's parent link points at the
id of the next (closer to the root) element. -/
def chain_linked : List StoredNode → Prop
  | a :: b :: rest => parent_link a = some b.id ∧ chain_linked (b :: rest)
  | _ => True

/-- A non-empty walk starts at the node whose id the walk was asked for. -/
theorem walkChain_cons_cur (m : List (Str × StoredNode))
    (wf : ∀ p ∈ m, (Prod.snd p).id = p.1) (visited : List Str) (cur : Option Str)
    (b : StoredNode) (t : List StoredNode)
    (h : walkChain m visited cur = b :: t) : cur = some b.id := by
  match cur with
  | none => simp [walkChain] at h
  | some c =>
    unfold walkChain at h
    split at h
    · simp at h
    · split at h
      · simp at h
      · split at h
        · simp at h
        · rename_i nd hl hv
          have hid : nd.id = c := wf (c, nd) (lookup_mem_pair m c nd hl)
          have hnd : nd = b := by
            injection h with h1 h2
          rw [← hnd, hid]

/-- Combined walk properties: distinct ids never in the visited set,
parent-linked order, and length bounded by the unvisited-key count. -/
theorem walkChain_spec (m : List (Str × StoredNode))
    (wf : ∀ p ∈ m, (Prod.snd p).id = p.1) :
    ∀ (visited : List Str) (cur : Option Str),
      (((walkChain m visited cur).map StoredNode.id).Nodup ∧
        ∀ nd ∈ walkChain m visited cur, nd.id ∉ visited) ∧
      chain_linked (walkChain m visited cur) ∧
      (walkChain m visited cur).length
        ≤ (m.filter (fun p => decide (¬ p.1 ∈ visited))).length := by
  intro visited cur
  induction visited, cur using walkChain.induct m with
  | case1 visited =>
    have he : walkChain m visited none = [] := by simp [walkChain]
    rw [he]
    exact ⟨⟨by simp, by simp⟩, by trivial, by simp⟩
  | case2 visited c hc =>
    have he : walkChain m visited (some c) = [] := by simp [walkChain, hc]
    rw [he]
    exact ⟨⟨by simp, by simp⟩, by trivial, by simp⟩
  | case3 visited c hc hl =>
    have he : walkChain m visited (some c) = [] := by
      rw [walkChain, if_neg hc]
      split
      · rfl
      · rename_i nd2 hl2
        rw [hl] at hl2
        simp at hl2
    rw [he]
    exact ⟨⟨by simp, by simp⟩, by trivial, by simp⟩
  | case4 visited c hc nd hl hv =>
    have he : walkChain m visited (some c) = [] := by
      rw [walkChain, if_neg hc]
      split
      · rfl
      · rename_i nd2 hl2
        rw [dif_pos hv]
    rw [he]
    exact ⟨⟨by simp, by simp⟩, by trivial, by simp⟩
  | case5 visited c hc nd hl hv ih =>
    have he : walkChain m visited (some c)
        = nd :: walkChain m (c :: visited) (parent_link nd) := by
      rw [walkChain, if_neg hc]
      split
      · rename_i hl2
        rw [hl] at hl2
        simp at hl2
      · rename_i nd2 hl2
        rw [hl] at hl2
        injection hl2 with h2
        subst h2
        rw [dif_neg hv]
    obtain ⟨⟨ihnd, ihvis⟩, ihlink, ihlen⟩ := ih
    have hid : nd.id = c := wf (c, nd) (lookup_mem_pair m c nd hl)
    rw [he]
    refine ⟨⟨?_, ?_⟩, ?_, ?_⟩
    · simp only [List.map_cons, List.nodup_cons]
      refine ⟨?_, ihnd⟩
      intro hin
      obtain ⟨x, hx, hxid⟩ := List.mem_map.mp hin
      have hxv := ihvis x hx
      rw [hxid, hid] at hxv
      exact hxv (List.mem_cons_self _ _)
    · intro x hx
      rcases List.mem_cons.mp hx with h | h
      · subst h
        rw [hid]
        exact hv
      · have hxv := ihvis x h
        exact fun hf => hxv (List.mem_cons_of_mem _ hf)
    · cases hr : walkChain m (c :: visited) (parent_link nd) with
      | nil => trivial
      | cons b t =>
        have hpl : parent_link nd = some b.id :=
          walkChain_cons_cur m wf (c :: visited) (parent_link nd) b t hr
        rw [hr] at ihlink
        exact ⟨hpl, ihlink⟩
    · have hstrict := filter_unvisited_strict m visited c
        (lookup_mem_keys m c nd hl) hv
      simp only [List.length_cons]
      omega

/-- C10 confirmed: build_context_chain is total - the walk terminates for
every finite node set, cycles in the parent_id references included, because
every step moves one map key into the visited set - and the walk visits nodes
with pairwise-distinct ids (each node appears at most once), is parent-linked
(the returned chain is its reversal, i.e. root-to-leaf order), and is never
longer than the stored node set. -/
theorem c10_build_context_chain (nodes : List StoredNode) (node_id : Str) :
    build_context_chain nodes node_id
        = ((walkChain (node_map_of nodes) [] (some node_id)).reverse).map entry_of ∧
    ((walkChain (node_map_of nodes) [] (some node_id)).map StoredNode.id).Nodup ∧
    chain_linked (walkChain (node_map_of nodes) [] (some node_id)) ∧
    (walkChain (node_map_of nodes) [] (some node_id)).length ≤ nodes.length ∧
    (build_context_chain nodes node_id).length ≤ nodes.length := by
  have wf : ∀ p ∈ node_map_of nodes, (Prod.snd p).id = p.1 := by
    intro p hp
    exact node_map_wf nodes p.1 p.2 (by simpa using hp)
  obtain ⟨⟨hnd, _⟩, hlink, hlen⟩ :=
    walkChain_spec (node_map_of nodes) wf [] (some node_id)
  have hmlen : (node_map_of nodes).length = nodes.length := by
    simp [node_map_of]
  have hfl : ((node_map_of nodes).filter
      (fun p => decide (¬ p.1 ∈ ([] : List Str)))).length
        ≤ (node_map_of nodes).length := List.length_filter_le _ _
  have hwalk_len :
      (walkChain (node_map_of nodes) [] (some node_id)).length ≤ nodes.length := by
    omega
  have hbuild : build_context_chain nodes node_id
      = ((walkChain (node_map_of nodes) [] (some node_id)).reverse).map entry_of := by
    by_cases hemp : nodes.isEmpty
    · have hnil : nodes = [] := List.isEmpty_iff.mp hemp
      subst hnil
      have hwnil : walkChain (node_map_of []) [] (some node_id) = [] := by
        rw [walkChain]
        split
        · rfl
        · split
          · rfl
          · rename_i nd hl2
            simp [node_map_of, List.lookup] at hl2
      rw [hwnil]
      simp [build_context_chain]
    · simp [build_context_chain, hemp]
  refine ⟨hbuild, hnd, hlink, hwalk_len, ?_⟩
  rw [hbuild]
  simpa using hwalk_len
